import Mathlib

/-!
# Verification of the DICOM Viewer backend core (backend/app/main.py)

A shallow embedding of the schema-aware query and identifier-resolution
layer of the DICOM Viewer backend, together with proofs of its specified
properties.

Modelling conventions:
* The `reports` DuckDB table is a list of `ReportRow`s.  A row carries its
  study identifier and report text as `Option String` (SQL NULL = `none`),
  and its finding columns as a function `String → Option String`.
* Parquet sources (the mapping parquet and the DICOM metadata parquet) are
  `ParquetSource` values: a file-existence flag, explicit I/O-failure flags
  for the DESCRIBE probe and the data query (each failure flag models the
  corresponding call raising an exception), the column list the DESCRIBE
  returns, and the rows, each a function from column name to value.
* SQL queries built by the endpoints are given their standard semantics:
  `WHERE c = ?` keeps rows whose value at `c` equals the bound parameter
  (NULL never matches), `GROUP BY` groups by key, `MIN` takes the least
  non-NULL value (NULL when the group has none), `ORDER BY` sorts ascending
  (binary/code-point collation, matching `String`'s linear order),
  `LIMIT n OFFSET m` is `drop m` then `take n`, `COUNT(DISTINCT c)` counts
  distinct non-NULL values, and `LIMIT 1` takes the first match in row
  order (`List.find?`).
* Python's `x or y` on optional strings and its truthiness test are
  modelled explicitly (`orFalsy`, `pyTruthy`): `None` and `""` are falsy.
* `try`/`except` blocks are modelled with `Except Unit` bodies whose
  errors the wrapper catches.
-/

/-- The fixed metadata exclusion set of `_finding_columns` (main.py lines
45-48), as a list of names. -/
def meta_cols : List String :=
  ["clean_report_text", "studyID", "age", "views", "study_date",
   "regex_labels", "report_text", "report_path", "llm_labels"]

/-- `_finding_columns` (main.py 43-53): the columns of the `reports` table
(the `schema` argument stands for the names returned by
`PRAGMA table_info('reports')`, in table order) minus the fixed metadata
exclusion set, in schema order. -/
def finding_columns (schema : List String) : List String :=
  schema.filter (fun c => !(meta_cols.contains c))

/-- The sort order of the embedding: lexicographic (code-point) order on
the underlying character data, which is what both Python's `list.sort` on
`str` and DuckDB's binary-collation `ORDER BY` use.  It is propositionally
the linear order of `String` (`strLe_iff`), but stated on the data so that
it reduces definitionally on concrete inputs (the library instance for
`String`'s `≤` recurses on iterators and does not). -/
def strLe (a b : String) : Prop := a.data ≤ b.data

instance : DecidableRel strLe :=
  fun a b => (inferInstance : Decidable (a.data ≤ b.data))

instance : IsTrans String strLe :=
  ⟨fun _ _ _ hab hbc => le_trans (α := List Char) hab hbc⟩

instance : IsTotal String strLe :=
  ⟨fun a b => le_total (α := List Char) a.data b.data⟩

instance : IsAntisymm String strLe :=
  ⟨fun a b hab hba => by
    cases a; cases b
    exact congrArg String.mk (le_antisymm (α := List Char) hab hba)⟩

/-- `get_findings` (main.py 119-126): the finding columns sorted in
ascending (case-sensitive lexicographic) order, as Python's `list.sort`
produces. -/
def get_findings (schema : List String) : List String :=
  List.insertionSort strLe (finding_columns schema)

/-- One row of the `reports` table: study identifier, report text, and the
finding columns as a map from column name to value (`none` = SQL NULL). -/
structure ReportRow where
  studyID : Option String
  clean_report_text : Option String
  findings : String → Option String

/-- One element of the `/studies` response (main.py 198). -/
structure StudyOut where
  studyId : String
  cleanReportText : Option String
deriving DecidableEq, Repr

/-- The error conditions the endpoints signal via `HTTPException`:
`invalidColumn` = 400 "Hallazgo desconocido", `unavailable` = 503
"Parquet no disponible", `schemaMismatch` = 500 "No se encontró columna de
Study UID", `serverErr` = 500 from the outer `except` handler. -/
inductive ApiError where
  | invalidColumn
  | unavailable
  | schemaMismatch
  | serverErr
deriving DecidableEq, Repr

/-- The optional filter of `/studies` and `/studies/count`: the code
applies a filter exactly when both `hallazgo` and `value` are supplied
(main.py 184, 209). -/
def mkFilter (hallazgo value : Option String) : Option (String × String) :=
  match hallazgo, value with
  | some h, some v => some (h, v)
  | _, _ => none

/-- The WHERE clause of both studies queries: `studyID IS NOT NULL`, plus
`"hallazgo" = ?` when a filter is present (main.py 183, 189). -/
def rowMatches (filter : Option (String × String)) (r : ReportRow) : Bool :=
  r.studyID.isSome &&
    (match filter with
     | none => true
     | some (c, v) => r.findings c == some v)

/-- The rows of `reports` satisfying the WHERE clause. -/
def matchingReports (filter : Option (String × String)) (db : List ReportRow) :
    List ReportRow :=
  db.filter (rowMatches filter)

/-- The distinct study identifiers among the matching rows (the `GROUP BY
studyID` keys; also what `COUNT(DISTINCT studyID)` counts). -/
def studyKeys (filter : Option (String × String)) (db : List ReportRow) :
    List String :=
  ((matchingReports filter db).filterMap (·.studyID)).dedup

/-- `MIN(clean_report_text)` over one `GROUP BY studyID` group: the least
non-NULL text, NULL when the group has none. -/
def minTextFor (filter : Option (String × String)) (db : List ReportRow)
    (k : String) : Option String :=
  (((matchingReports filter db).filter (fun r => r.studyID == some k)).filterMap
    (·.clean_report_text)).min?

/-- The full (un-paginated) result of the `/studies` query (main.py
179-194 without `LIMIT`/`OFFSET`): one entry per distinct non-NULL
`studyID` among the matching rows, ordered by `studyID` ascending, each
with its group's `MIN(clean_report_text)` as representative text. -/
def studiesListing (filter : Option (String × String)) (db : List ReportRow) :
    List StudyOut :=
  (List.insertionSort strLe (studyKeys filter db)).map
    (fun k => { studyId := k, cleanReportText := minTextFor filter db k })

/-- `get_studies` (main.py 169-198).  `schema` stands for the `reports`
column list that `_finding_columns` reads; `db` for the table rows.  When
both `hallazgo` and `value` are supplied, the column is validated against
the allowlist before any data query runs; then the grouped, ordered query
runs with `LIMIT page_size OFFSET (page-1)*page_size`.  (FastAPI
additionally validates `page ≥ 1` and `1 ≤ page_size ≤ 100` before the
handler runs.) -/
def get_studies (schema : List String) (hallazgo value : Option String)
    (page page_size : Nat) (db : List ReportRow) :
    Except ApiError (List StudyOut) :=
  match hallazgo, value with
  | some h, some v =>
    if h ∈ finding_columns schema then
      .ok (((studiesListing (some (h, v)) db).drop ((page - 1) * page_size)).take
        page_size)
    else
      .error .invalidColumn
  | _, _ =>
    .ok (((studiesListing none db).drop ((page - 1) * page_size)).take page_size)

/-- `get_studies_count` (main.py 200-223): `COUNT(DISTINCT studyID)` under
the same WHERE clause, with the same allowlist validation. -/
def get_studies_count (schema : List String) (hallazgo value : Option String)
    (db : List ReportRow) : Except ApiError Nat :=
  match hallazgo, value with
  | some h, some v =>
    if h ∈ finding_columns schema then
      .ok (studyKeys (some (h, v)) db).length
    else
      .error .invalidColumn
  | _, _ => .ok (studyKeys none db).length

/-- A filter configuration the endpoints accept without signalling
`invalidColumn`: either the filter is inactive (at least one of the two
parameters missing) or the column is in the allowlist. -/
def validFilter (schema : List String) (hallazgo value : Option String) : Prop :=
  match hallazgo, value with
  | some h, some _ => h ∈ finding_columns schema
  | _, _ => True

/-- The candidate list of `_detect_study_uid_column` (main.py 70-76), in
priority order. -/
def study_uid_candidates : List String :=
  ["StudyInstanceUID", "studyID", "study_id", "anon_study_uid", "StudyUID"]

/-- The candidate loop of `_detect_study_uid_column` (main.py 77-79): the
first candidate present in the available set (case-sensitive exact
membership). -/
def firstPresent (avail : List String) : List String → Option String
  | [] => none
  | c :: rest => if c ∈ avail then some c else firstPresent avail rest

/-- `_detect_study_uid_column` (main.py 68-80).  The available set of
column names is modelled as a list (membership is all that is used). -/
def detect_study_uid_column (avail : List String) : Option String :=
  firstPresent avail study_uid_candidates

/-- Case-insensitive name equality, as Python's `str.lower()` comparison
behaves on the ASCII column names involved (character-wise lowercasing of
the data; `String.toLower` itself recurses on byte positions and does not
reduce definitionally). -/
def lowerEq (a b : String) : Bool :=
  a.data.map Char.toLower == b.data.map Char.toLower

/-- `_find_col` (main.py 82-91): the first candidate whose lowercasing is
the lowercasing of some available column, returned in the column's
original case.  (Python builds a lowercase→original dict from the set; for
available sets with no two columns sharing a lowercasing — the only case
arising here — that is the lookup below.) -/
def find_col (avail : List String) : List String → Option String
  | [] => none
  | cand :: rest =>
    match avail.find? (fun c => lowerEq c cand) with
    | some c => some c
    | none => find_col avail rest

/-- Python's `x or y` on an optional string: `None` and `""` are falsy. -/
def orFalsy (a b : Option String) : Option String :=
  match a with
  | some s => if s = "" then b else some s
  | none => b

/-- Python's truthiness test on an optional string. -/
def pyTruthy (a : Option String) : Bool :=
  match a with
  | some s => s ≠ ""
  | none => false

/-- A parquet row: column name → value (`none` = NULL / column absent). -/
abbrev PRow := String → Option String

/-- One parquet-backed data source as the endpoints see it.
`describeFails` (resp. `queryFails`) models the DESCRIBE probe (resp. the
data query) raising an I/O exception. -/
structure ParquetSource where
  fileExists : Bool
  describeFails : Bool
  queryFails : Bool
  columns : List String
  rows : List PRow

/-- The available column set `_map_real_to_anon_study_uid` computes
(main.py 105): DESCRIBE output with falsy (empty) names dropped. -/
def mappingAvail (src : ParquetSource) : List String :=
  src.columns.filter (fun c => c ≠ "")

/-- The "real"-side column resolution (main.py 107): `PHI` first, then the
ranked alternatives, combined with Python's `or`. -/
def mapRealCol (src : ParquetSource) : Option String :=
  orFalsy (find_col (mappingAvail src) ["PHI"])
    (find_col (mappingAvail src)
      ["StudyInstanceUID", "studyID", "original_study_uid", "real_study_uid"])

/-- The "anon"-side column resolution (main.py 108). -/
def mapAnonCol (src : ParquetSource) : Option String :=
  orFalsy (find_col (mappingAvail src) ["ANON"])
    (find_col (mappingAvail src)
      ["anon_study_uid", "AnonymizedStudyInstanceUID", "anonStudyInstanceUID",
       "anon_StudyInstanceUID"])

/-- The `try` body of `_map_real_to_anon_study_uid` (main.py 103-115).
`.error ()` models an exception escaping the body.  The lookup is
`SELECT "anon_col" FROM ... WHERE "real_col" = ? LIMIT 1`, i.e. the first
row (in row order) whose real column equals the bound uid; its anon value
may itself be NULL, which the Python `rows[0].get("anon")` returns as
`None`. -/
def map_real_to_anon_body (src : ParquetSource) (real_uid : String) :
    Except Unit (Option String) :=
  if src.describeFails then .error ()
  else
    match mapRealCol src, mapAnonCol src with
    | some rc, some ac =>
      if rc = "" || ac = "" then .ok none
      else if src.queryFails then .error ()
      else
        match src.rows.find? (fun r => r rc == some real_uid) with
        | some r => .ok (r ac)
        | none => .ok none
    | _, _ => .ok none

/-- `_map_real_to_anon_study_uid` (main.py 93-117): missing file returns
`None` up front; the body runs under `try`, and any exception is swallowed
into `None`. -/
def map_real_to_anon_study_uid (src : ParquetSource) (real_uid : String) :
    Option String :=
  if src.fileExists = false then none
  else
    match map_real_to_anon_body src real_uid with
    | .ok v => v
    | .error _ => none

/-- The outcome of `get_dicom_by_sop`: a served file, a 404, or a 500 from
the outer `except` handler. -/
inductive DicomResult where
  | file (path : String)
  | notFound
  | serverError
deriving DecidableEq, Repr

/-- The fixed ordered roots of the convention probe (main.py 140). -/
def dicomRoots : List String := ["/app/data", "/data_in", "/data"]

/-- The environment of `get_dicom_by_sop`: the filesystem (existence
predicate) and the DICOM metadata parquet. -/
structure DicomEnv where
  fs : String → Bool
  meta : ParquetSource

/-- The root loop of `get_dicom_by_sop` (main.py 140-143): the first root
under which `{sop}.dcm` exists, as a full path. -/
def probeRoots (fs : String → Bool) (filename : String) :
    List String → Option String
  | [] => none
  | root :: rest =>
    let p := root ++ "/" ++ filename
    if fs p then some p else probeRoots fs filename rest

/-- The inner `try` body of step 2 of `get_dicom_by_sop` (main.py
147-158): describe the parquet, pick the first available path column among
`file_path`, `dicom_path`, `path`, look up the first row whose
`SOPInstanceUID` equals the bound sop, and require the referenced path to
exist on disk.  `.ok none` means "fall through to 404". -/
def dicomMetaBody (env : DicomEnv) (sop : String) : Except Unit (Option String) :=
  if env.meta.describeFails then .error ()
  else
    match ["file_path", "dicom_path", "path"].filter
        (fun c => env.meta.columns.contains c) with
    | [] => .ok none
    | file_col :: _ =>
      if env.meta.queryFails then .error ()
      else
        match env.meta.rows.find? (fun r => r "SOPInstanceUID" == some sop) with
        | some r =>
          match r file_col with
          | some p => if env.fs p then .ok (some p) else .ok none
          | none => .ok none
        | none => .ok none

/-- Step 2 of `get_dicom_by_sop` (main.py 146-161): only attempted when
the parquet file exists; any exception of the inner body is caught and
ignored (`except Exception: pass`). -/
def dicomMetaResolve (env : DicomEnv) (sop : String) : Option String :=
  if env.meta.fileExists = false then none
  else
    match dicomMetaBody env sop with
    | .ok v => v
    | .error _ => none

/-- `get_dicom_by_sop` (main.py 128-167): the convention probe over the
fixed roots, then the parquet-driven lookup, then 404.  The outer handler
re-raises the `HTTPException` 404 and turns any other exception into a
500; in this model nothing the body does escapes, so 500 is unreachable. -/
def get_dicom_by_sop (env : DicomEnv) (sop : String) : DicomResult :=
  match probeRoots env.fs (sop ++ ".dcm") dicomRoots with
  | some p => .file p
  | none =>
    match dicomMetaResolve env sop with
    | some p => .file p
    | none => .notFound

/-- The preferred compact column set of `get_study_dicoms` (main.py
266-278). -/
def preferredDicomCols : List String :=
  ["StudyInstanceUID", "SeriesInstanceUID", "SOPInstanceUID", "PatientID",
   "Modality", "BodyPartExamined", "AcquisitionDate", "AcquisitionTime",
   "dicom_path", "path", "file_path"]

/-- The environment of `get_study_dicoms`: the DICOM metadata parquet and
the mapping parquet (two independently configured sources). -/
structure StudyDicomsEnv where
  meta : ParquetSource
  mapping : ParquetSource

/-- The response of `get_study_dicoms` (main.py 287). -/
structure StudyDicomsOut where
  studyId : String
  mappedStudyId : Option String
  count : Nat
  items : List PRow

/-- The `target_uid` of `get_study_dicoms` (main.py 252): Python's
`anon_uid or study_id`. -/
def targetUidOf (env : StudyDicomsEnv) (study_id : String) : String :=
  match orFalsy (map_real_to_anon_study_uid env.mapping study_id)
      (some study_id) with
  | some t => t
  | none => study_id

/-- The filter column of `get_study_dicoms` (main.py 254-261): the
detected Study-UID column, replaced by the anon column when the mapping
succeeded (truthily) and an anon-named column is (truthily) present. -/
def filterColOf (env : StudyDicomsEnv) (study_id : String) (uid_col : String) :
    String :=
  if pyTruthy (map_real_to_anon_study_uid env.mapping study_id) then
    match find_col env.meta.columns
        ["ANON", "anon", "anon_study_uid", "AnonymizedStudyInstanceUID",
         "anonStudyInstanceUID", "anon_StudyInstanceUID"] with
    | some c => if c = "" then uid_col else c
    | none => uid_col
  else uid_col

/-- The SELECT projection of `get_study_dicoms` (main.py 279-283): the
preferred columns present in the parquet, or every column (`SELECT *`,
modelled as the identity) when none of them is. -/
def dicomProjection (env : StudyDicomsEnv) : PRow → PRow :=
  match preferredDicomCols.filter (fun c => env.meta.columns.contains c) with
  | [] => id
  | select_cols => fun r c => if select_cols.contains c then r c else none

/-- The rows of the metadata parquet matching
`WHERE "filter_col" = target_uid`, before `LIMIT 2000` (main.py 285). -/
def studyDicomRowsMatching (env : StudyDicomsEnv) (study_id : String)
    (uid_col : String) : List PRow :=
  env.meta.rows.filter
    (fun r => r (filterColOf env study_id uid_col) ==
      some (targetUidOf env study_id))

/-- `get_study_dicoms` (main.py 225-291): 503 when the metadata parquet is
absent; the outer `except` turns a DESCRIBE or query exception into a 500;
500 when no Study-UID column is detected; otherwise the best-effort
mapping runs, the filter column and projection are chosen, and the lookup
runs with `LIMIT 2000`, the response's `count` being the length of the
returned (truncated) row list. -/
def get_study_dicoms (env : StudyDicomsEnv) (study_id : String) :
    Except ApiError StudyDicomsOut :=
  if env.meta.fileExists = false then .error .unavailable
  else if env.meta.describeFails then .error .serverErr
  else
    match detect_study_uid_column env.meta.columns with
    | none => .error .schemaMismatch
    | some uid_col =>
      if env.meta.queryFails then .error .serverErr
      else
        let target := targetUidOf env study_id
        let rows := ((studyDicomRowsMatching env study_id uid_col).take 2000).map
          (dicomProjection env)
        .ok { studyId := study_id,
              mappedStudyId := if target ≠ study_id then some target else none,
              count := rows.length,
              items := rows }



/-- A sample `reports` table used to instantiate the theorems below: two
rows share study `s2`, one row has study `s1` (the only one labelled for
`Pneumonia`), one row has a NULL study identifier. -/
def dbSample : List ReportRow :=
  [ { studyID := some "s2", clean_report_text := some "b",
      findings := fun _ => none },
    { studyID := some "s1", clean_report_text := none,
      findings := fun c => if c = "Pneumonia" then some "Certainly True" else none },
    { studyID := some "s2", clean_report_text := some "a",
      findings := fun _ => none },
    { studyID := none, clean_report_text := some "z",
      findings := fun _ => none } ]

/-- A sample mapping parquet with columns `PHI`, `ANON` and the single row
`("R1", "A1")` (the identity-mapping example of the specification). -/
def mappingSample : ParquetSource :=
  { fileExists := true, describeFails := false, queryFails := false,
    columns := ["PHI", "ANON"],
    rows := [fun c =>
      if c = "PHI" then some "R1" else if c = "ANON" then some "A1" else none] }

/-- A mapping parquet whose file is absent. -/
def mappingAbsent : ParquetSource :=
  { fileExists := false, describeFails := false, queryFails := false,
    columns := [], rows := [] }

/-- A filesystem/metadata environment for `get_dicom_by_sop` in which
`X.dcm` exists under the second configured root only and no metadata
parquet is available. -/
def dicomEnvSample : DicomEnv :=
  { fs := fun p => p == "/data_in/X.dcm",
    meta := mappingAbsent }

/-- The row of `sdEnvSample`'s metadata parquet. -/
def sdRowSample : PRow :=
  fun c => if c = "anon_study_uid" then some "S" else none

/-- A `get_study_dicoms` environment: a reachable metadata parquet whose
only column is `anon_study_uid` (so the Study-UID detector picks it and
the preferred projection is empty, i.e. `SELECT *`), holding one row for
study `S`; no mapping parquet. -/
def sdEnvSample : StudyDicomsEnv :=
  { meta := { fileExists := true, describeFails := false, queryFails := false,
              columns := ["anon_study_uid"], rows := [sdRowSample] },
    mapping := mappingAbsent }

/-- The response `get_study_dicoms sdEnvSample "S"` produces. -/
def sdResSample : StudyDicomsOut :=
  { studyId := "S", mappedStudyId := none, count := 1, items := [sdRowSample] }

/-- The embedding's sort order is exactly `String`'s linear order. -/
theorem strLe_iff (a b : String) : strLe a b ↔ a ≤ b :=
  String.le_iff_toList_le.symm

/-- The candidate loop of the Study-UID detector is the first-hit search
over the candidate list. -/
theorem firstPresent_eq_find (avail : List String) :
    ∀ cs : List String,
      firstPresent avail cs = cs.find? (fun c => decide (c ∈ avail)) := by
  intro cs
  induction cs with
  | nil => rfl
  | cons c rest ih =>
    by_cases h : c ∈ avail <;> simp [firstPresent, List.find?_cons, h, ih]

/-- The listing and the `COUNT(DISTINCT studyID)` count range over the
same keys. -/
theorem studiesListing_length (filter : Option (String × String))
    (db : List ReportRow) :
    (studiesListing filter db).length = (studyKeys filter db).length := by
  unfold studiesListing
  rw [List.length_map]
  exact (List.perm_insertionSort _ _).length_eq

/-- The study identifiers of the full listing are the sorted,
deduplicated keys. -/
theorem studiesListing_map_studyId (filter : Option (String × String))
    (db : List ReportRow) :
    (studiesListing filter db).map (·.studyId) =
      List.insertionSort strLe (studyKeys filter db) := by
  simp only [studiesListing, List.map_map]
  exact List.map_id _

/-- C1: for every filter column `c` outside the current finding-column
allowlist, a filtered `/studies` listing call and a filtered
`/studies/count` call both signal the `InvalidColumn` (HTTP 400) rejection.
The table rows `db` are universally quantified and do not occur in the
conclusion: the outcome is the same for every database state, i.e. the
rejection happens before the endpoint's data query runs (the only data
access the code performs first is the schema introspection that computes
the allowlist itself). -/
theorem filtered_calls_reject_unknown_column (schema : List String)
    (c v : String) (page page_size : Nat) (db : List ReportRow)
    (h : c ∉ finding_columns schema) :
    get_studies schema (some c) (some v) page page_size db =
      .error .invalidColumn ∧
    get_studies_count schema (some c) (some v) db = .error .invalidColumn := by
  constructor <;> simp [get_studies, get_studies_count, h]

/-- Witness for C1: `"Nope"` is not a finding column of a schema with
columns `studyID`, `Pneumonia`, and both filtered calls reject it. -/
theorem filtered_calls_reject_unknown_column_witness :
    ("Nope" ∉ finding_columns ["studyID", "Pneumonia"]) ∧
    get_studies ["studyID", "Pneumonia"] (some "Nope") (some "x") 1 20 dbSample =
      .error .invalidColumn ∧
    get_studies_count ["studyID", "Pneumonia"] (some "Nope") (some "x") dbSample =
      .error .invalidColumn :=
  ⟨by decide,
   (filtered_calls_reject_unknown_column _ "Nope" "x" 1 20 dbSample (by decide)).1,
   (filtered_calls_reject_unknown_column _ "Nope" "x" 1 20 dbSample (by decide)).2⟩

/-- C2: for every duplicate-free report schema, `get_findings` returns a
case-sensitively sorted, duplicate-free list whose members are exactly the
schema columns outside the fixed metadata exclusion set, and its value
does not depend on the input ordering of the schema. -/
theorem get_findings_exact_sorted (S : List String) (hS : S.Nodup) :
    List.Sorted (· ≤ ·) (get_findings S) ∧
    (get_findings S).Nodup ∧
    (∀ c, c ∈ get_findings S ↔ (c ∈ S ∧ c ∉ meta_cols)) ∧
    (∀ S' : List String, List.Perm S' S → get_findings S' = get_findings S) := by
  refine ⟨(List.sorted_insertionSort strLe _).imp
    (fun hab => (strLe_iff _ _).mp hab), ?_, ?_, ?_⟩
  · exact (List.perm_insertionSort _ _).symm.nodup (hS.filter _)
  · intro c
    simp [get_findings, finding_columns, List.mem_filter]
  · intro S' hperm
    refine List.eq_of_perm_of_sorted ?_ (List.sorted_insertionSort _ _)
      (List.sorted_insertionSort _ _)
    exact (List.perm_insertionSort _ _).trans
      ((hperm.filter _).trans (List.perm_insertionSort _ _).symm)

/-- Witness for C2: a concrete unordered schema, with its sorted finding
list. -/
theorem get_findings_exact_sorted_witness :
    (["Pneumonia", "age", "Atelectasis"] : List String).Nodup ∧
    List.Sorted (· ≤ ·) (get_findings ["Pneumonia", "age", "Atelectasis"]) ∧
    get_findings ["Pneumonia", "age", "Atelectasis"] =
      ["Atelectasis", "Pneumonia"] :=
  ⟨by decide,
   (get_findings_exact_sorted ["Pneumonia", "age", "Atelectasis"] (by decide)).1,
   by decide⟩

/-- C5: the Study-UID detector is the top-to-bottom first-hit search over
the fixed priority list `[StudyInstanceUID, studyID, study_id,
anon_study_uid, StudyUID]` under case-sensitive exact membership; in
particular it returns `studyID` for the available set
`{studyID, SOPInstanceUID}` and nothing for the empty set. -/
theorem detect_study_uid_priority :
    (∀ avail : List String,
      detect_study_uid_column avail =
        study_uid_candidates.find? (fun c => decide (c ∈ avail))) ∧
    detect_study_uid_column ["studyID", "SOPInstanceUID"] = some "studyID" ∧
    detect_study_uid_column ([] : List String) = none :=
  ⟨fun avail => firstPresent_eq_find avail study_uid_candidates,
   by decide, rfl⟩

/-- C9: when exactly one of the two filter parameters is supplied, both
endpoints ignore it entirely — no allowlist validation, no filter — and
return the unfiltered result, even for a column outside the allowlist
(`h` ranges over all strings). -/
theorem half_supplied_filter_ignored (schema : List String) (h v : String)
    (page page_size : Nat) (db : List ReportRow) :
    get_studies schema (some h) none page page_size db =
      get_studies schema none none page page_size db ∧
    get_studies schema none (some v) page page_size db =
      get_studies schema none none page page_size db ∧
    get_studies_count schema (some h) none db =
      get_studies_count schema none none db ∧
    get_studies_count schema none (some v) db =
      get_studies_count schema none none db ∧
    get_studies schema (some h) none page page_size db =
      .ok (((studiesListing none db).drop ((page - 1) * page_size)).take
        page_size) ∧
    get_studies_count schema (some h) none db = .ok (studyKeys none db).length :=
  ⟨rfl, rfl, rfl, rfl, rfl, rfl⟩

/-- C3: under any accepted filter (no filter, or an allowlisted column
with a value), the `/studies/count` result equals the length of the full
listing with pagination removed, and that full listing is what `/studies`
returns at page 1 with any sufficiently large page size; both sides
exclude NULL study identifiers through the same `studyID IS NOT NULL`
clause (`studiesListing` and `studyKeys` are built from the same
`matchingReports`). -/
theorem count_consistent_with_listing (schema : List String)
    (hallazgo value : Option String) (db : List ReportRow)
    (hv : validFilter schema hallazgo value) :
    get_studies_count schema hallazgo value db =
      .ok (studiesListing (mkFilter hallazgo value) db).length ∧
    (∀ n : Nat, (studiesListing (mkFilter hallazgo value) db).length ≤ n →
      get_studies schema hallazgo value 1 n db =
        .ok (studiesListing (mkFilter hallazgo value) db)) := by
  constructor
  · match hallazgo, value with
    | some h, some v =>
      simp only [validFilter] at hv
      simp [get_studies_count, hv, mkFilter, studiesListing_length]
    | some h, none => simp [get_studies_count, mkFilter, studiesListing_length]
    | none, some v => simp [get_studies_count, mkFilter, studiesListing_length]
    | none, none => simp [get_studies_count, mkFilter, studiesListing_length]
  · intro n hn
    match hallazgo, value with
    | some h, some v =>
      simp only [validFilter] at hv
      simp only [get_studies, hv, if_true, mkFilter] at hn ⊢
      rw [Nat.sub_self, Nat.zero_mul, List.drop_zero, List.take_of_length_le hn]
    | some h, none =>
      simp only [get_studies, mkFilter] at hn ⊢
      rw [Nat.sub_self, Nat.zero_mul, List.drop_zero, List.take_of_length_le hn]
    | none, some v =>
      simp only [get_studies, mkFilter] at hn ⊢
      rw [Nat.sub_self, Nat.zero_mul, List.drop_zero, List.take_of_length_le hn]
    | none, none =>
      simp only [get_studies, mkFilter] at hn ⊢
      rw [Nat.sub_self, Nat.zero_mul, List.drop_zero, List.take_of_length_le hn]

/-- Witness for C3: on the sample table (three non-NULL rows over two
studies plus one NULL row), the unfiltered count is the unfiltered
full-listing length, which page 1 with page size 5 returns whole. -/
theorem count_consistent_with_listing_witness :
    validFilter [] none none ∧
    get_studies_count [] none none dbSample =
      .ok (studiesListing (mkFilter none none) dbSample).length ∧
    get_studies [] none none 1 5 dbSample =
      .ok (studiesListing (mkFilter none none) dbSample) := by
  have h := count_consistent_with_listing [] none none dbSample trivial
  exact ⟨trivial, h.1, h.2 5 (by decide)⟩

/-- C4: under any accepted filter and any `page ≥ 1`, `page_size ≥ 1`,
the `/studies` result is exactly the slice at offsets
`(page-1)*page_size .. page*page_size - 1` of the full listing; the full
listing's study identifiers are sorted ascending and duplicate-free (NULL
identifiers having been excluded and each group represented by its minimum
non-NULL text, per `studiesListing`); and a page past the end returns an
empty list rather than an error. -/
theorem studies_pagination (schema : List String)
    (hallazgo value : Option String) (page page_size : Nat)
    (db : List ReportRow) (hv : validFilter schema hallazgo value)
    (_hp : 1 ≤ page) (_hk : 1 ≤ page_size) :
    get_studies schema hallazgo value page page_size db =
      .ok (((studiesListing (mkFilter hallazgo value) db).drop
        ((page - 1) * page_size)).take page_size) ∧
    List.Sorted (· ≤ ·)
      ((studiesListing (mkFilter hallazgo value) db).map (·.studyId)) ∧
    ((studiesListing (mkFilter hallazgo value) db).map (·.studyId)).Nodup ∧
    ((studiesListing (mkFilter hallazgo value) db).length ≤
        (page - 1) * page_size →
      get_studies schema hallazgo value page page_size db = .ok []) := by
  have hmain : get_studies schema hallazgo value page page_size db =
      .ok (((studiesListing (mkFilter hallazgo value) db).drop
        ((page - 1) * page_size)).take page_size) := by
    match hallazgo, value with
    | some h, some v =>
      simp only [validFilter] at hv
      simp [get_studies, hv, mkFilter]
    | some h, none => simp [get_studies, mkFilter]
    | none, some v => simp [get_studies, mkFilter]
    | none, none => simp [get_studies, mkFilter]
  refine ⟨hmain, ?_, ?_, ?_⟩
  · rw [studiesListing_map_studyId]
    exact (List.sorted_insertionSort strLe _).imp
      (fun hab => (strLe_iff _ _).mp hab)
  · rw [studiesListing_map_studyId]
    exact (List.perm_insertionSort _ _).symm.nodup (List.nodup_dedup _)
  · intro hle
    rw [hmain, List.drop_eq_nil_of_le hle, List.take_nil]

/-- Witness for C4: on the sample table (two distinct studies), page 2 of
size 1 is the second element, and page 5 of size 2 is past the end and
returns an empty list. -/
theorem studies_pagination_witness :
    validFilter [] none none ∧ 1 ≤ 2 ∧ 1 ≤ 1 ∧
    get_studies [] none none 2 1 dbSample =
      .ok (((studiesListing (mkFilter none none) dbSample).drop 1).take 1) ∧
    get_studies [] none none 5 2 dbSample = .ok [] := by
  have h1 := studies_pagination [] none none 2 1 dbSample trivial
    (by decide) (by decide)
  have h2 := studies_pagination [] none none 5 2 dbSample trivial
    (by decide) (by decide)
  exact ⟨trivial, by decide, by decide, h1.1, h2.2.2.2 (by decide)⟩

/-- C6: whenever the mapping parquet exists, neither the DESCRIBE nor the
lookup fails, and both the real and the anon column resolve (to non-falsy
names, by the ranked case-insensitive candidate search `mapRealCol` /
`mapAnonCol`, which try `PHI` resp. `ANON` first), the mapper performs the
single bound-parameter equality lookup `WHERE "real_col" = ?` and returns
the first matching row's anon value, and `none` ("no mapping") when no row
matches. -/
theorem map_real_to_anon_lookup (src : ParquetSource) (uid rc ac : String)
    (hex : src.fileExists = true) (hd : src.describeFails = false)
    (hq : src.queryFails = false)
    (hrc : mapRealCol src = some rc) (hac : mapAnonCol src = some ac)
    (hrc0 : rc ≠ "") (hac0 : ac ≠ "") :
    map_real_to_anon_study_uid src uid =
      (src.rows.find? (fun r => r rc == some uid)).bind (fun r => r ac) := by
  cases hfind : src.rows.find? (fun r => r rc == some uid) <;>
    simp [map_real_to_anon_study_uid, map_real_to_anon_body, hex, hd, hq,
      hrc, hac, hrc0, hac0, hfind]

/-- Witness for C6: the specification's identity-mapping example.  On a
source with columns `PHI`, `ANON` and single row `("R1","A1")`, the mapper
sends `"R1"` to `"A1"` and the absent `"R2"` to "no mapping". -/
theorem map_real_to_anon_lookup_witness :
    map_real_to_anon_study_uid mappingSample "R1" = some "A1" ∧
    map_real_to_anon_study_uid mappingSample "R2" = none :=
  ⟨(map_real_to_anon_lookup mappingSample "R1" "PHI" "ANON" rfl rfl rfl
      (by decide) (by decide) (by decide) (by decide)).trans rfl,
   (map_real_to_anon_lookup mappingSample "R2" "PHI" "ANON" rfl rfl rfl
      (by decide) (by decide) (by decide) (by decide)).trans rfl⟩

/-- C7: the mapper is total into `Option String` by construction — the
`try`/`except` of the source is the catch in
`map_real_to_anon_study_uid`, which maps every `.error` of the body to
`none` — and every failure mode (file absent, DESCRIBE raising, either
column unresolvable, the lookup raising, or zero matching rows) yields
`none` ("no mapping"), never an error, so the caller can always fall back
to the unmapped identifier. -/
theorem map_real_to_anon_never_raises (src : ParquetSource) (uid : String)
    (h : src.fileExists = false ∨ src.describeFails = true ∨
      mapRealCol src = none ∨ mapAnonCol src = none ∨
      src.queryFails = true ∨
      (∀ rc, mapRealCol src = some rc →
        src.rows.find? (fun r => r rc == some uid) = none)) :
    map_real_to_anon_study_uid src uid = none := by
  cases hfe : src.fileExists with
  | false => simp [map_real_to_anon_study_uid, hfe]
  | true =>
    cases hdf : src.describeFails with
    | true => simp [map_real_to_anon_study_uid, map_real_to_anon_body, hfe, hdf]
    | false =>
      cases hrc : mapRealCol src with
      | none =>
        cases hac : mapAnonCol src <;>
          simp [map_real_to_anon_study_uid, map_real_to_anon_body, hfe, hdf,
            hrc, hac]
      | some rc =>
        cases hac : mapAnonCol src with
        | none =>
          simp [map_real_to_anon_study_uid, map_real_to_anon_body, hfe, hdf,
            hrc, hac]
        | some ac =>
          rcases h with h | h | h | h | h | h
          · rw [hfe] at h; exact absurd h (by simp)
          · rw [hdf] at h; exact absurd h (by simp)
          · rw [hrc] at h; exact absurd h (by simp)
          · rw [hac] at h; exact absurd h (by simp)
          · by_cases hrc0 : rc = ""
            · simp [map_real_to_anon_study_uid, map_real_to_anon_body, hfe,
                hdf, hrc, hac, hrc0]
            · by_cases hac0 : ac = ""
              · simp [map_real_to_anon_study_uid, map_real_to_anon_body, hfe,
                  hdf, hrc, hac, hrc0, hac0]
              · simp [map_real_to_anon_study_uid, map_real_to_anon_body, hfe,
                  hdf, hrc, hac, hrc0, hac0, h]
          · have hfind := h rc hrc
            by_cases hrc0 : rc = ""
            · simp [map_real_to_anon_study_uid, map_real_to_anon_body, hfe,
                hdf, hrc, hac, hrc0]
            · by_cases hac0 : ac = ""
              · simp [map_real_to_anon_study_uid, map_real_to_anon_body, hfe,
                  hdf, hrc, hac, hrc0, hac0]
              · cases hqf : src.queryFails <;>
                  simp [map_real_to_anon_study_uid, map_real_to_anon_body,
                    hfe, hdf, hrc, hac, hrc0, hac0, hqf, hfind]

/-- Witness for C7: with the mapping parquet file absent, every lookup is
"no mapping". -/
theorem map_real_to_anon_never_raises_witness :
    map_real_to_anon_study_uid mappingAbsent "R1" = none :=
  map_real_to_anon_never_raises mappingAbsent "R1" (Or.inl rfl)

/-- The root loop of the convention probe is the first-hit search over the
roots' candidate paths. -/
theorem probeRoots_eq_find (fs : String → Bool) (filename : String) :
    ∀ roots : List String,
      probeRoots fs filename roots =
        (roots.map (fun root => root ++ "/" ++ filename)).find? fs := by
  intro roots
  induction roots with
  | nil => rfl
  | cons r rest ih =>
    cases hfs : fs (r ++ "/" ++ filename) <;>
      simp [probeRoots, List.find?_cons, hfs, ih]

/-- C8: `get_dicom_by_sop` never answers with the 500-class outcome; the
convention probe over the fixed ordered roots runs first and a hit
`{root}/{sop}.dcm` is served as found (the first hit, by
`probeRoots_eq_find`), the metadata state being irrelevant; only when the
probe misses does the metadata-driven lookup decide the outcome, a
resolved path being served and anything else giving 404; an absent
metadata file, a DESCRIBE failure or a query failure in step 2 each
collapse to the 404 path (never a 500); and a path resolved by step 2 was
verified to exist on disk. -/
theorem dicom_resolution_chain (env : DicomEnv) (sop : String) :
    get_dicom_by_sop env sop ≠ .serverError ∧
    probeRoots env.fs (sop ++ ".dcm") dicomRoots =
      (dicomRoots.map (fun root => root ++ "/" ++ (sop ++ ".dcm"))).find?
        env.fs ∧
    (∀ p, probeRoots env.fs (sop ++ ".dcm") dicomRoots = some p →
      get_dicom_by_sop env sop = .file p) ∧
    (probeRoots env.fs (sop ++ ".dcm") dicomRoots = none →
      get_dicom_by_sop env sop =
        match dicomMetaResolve env sop with
        | some p => .file p
        | none => .notFound) ∧
    (env.meta.fileExists = false → dicomMetaResolve env sop = none) ∧
    (env.meta.describeFails = true → dicomMetaResolve env sop = none) ∧
    (env.meta.queryFails = true → dicomMetaResolve env sop = none) ∧
    (∀ p, dicomMetaResolve env sop = some p → env.fs p = true) := by
  refine ⟨?_, probeRoots_eq_find env.fs (sop ++ ".dcm") dicomRoots,
    ?_, ?_, ?_, ?_, ?_, ?_⟩
  · cases hpr : probeRoots env.fs (sop ++ ".dcm") dicomRoots with
    | some p => simp [get_dicom_by_sop, hpr]
    | none =>
      cases hm : dicomMetaResolve env sop <;>
        simp [get_dicom_by_sop, hpr, hm]
  · intro p hpr
    simp [get_dicom_by_sop, hpr]
  · intro hpr
    simp [get_dicom_by_sop, hpr]
  · intro hm
    simp [dicomMetaResolve, hm]
  · intro hd
    cases hfe : env.meta.fileExists <;>
      simp [dicomMetaResolve, dicomMetaBody, hfe, hd]
  · intro hq
    cases hfe : env.meta.fileExists with
    | false => simp [dicomMetaResolve, hfe]
    | true =>
      cases hdf : env.meta.describeFails with
      | true => simp [dicomMetaResolve, dicomMetaBody, hfe, hdf]
      | false =>
        cases hfc : List.filter (fun c => decide (c ∈ env.meta.columns))
            ["file_path", "dicom_path", "path"] <;>
          simp [dicomMetaResolve, dicomMetaBody, hfe, hdf, hq, hfc]
  · intro p hm
    cases hfe : env.meta.fileExists with
    | false => simp [dicomMetaResolve, hfe] at hm
    | true =>
      cases hb : dicomMetaBody env sop with
      | error e => simp [dicomMetaResolve, hfe, hb] at hm
      | ok v =>
        have hv : v = some p := by simpa [dicomMetaResolve, hfe, hb] using hm
        subst hv
        cases hdf : env.meta.describeFails with
        | true => simp [dicomMetaBody, hdf] at hb
        | false =>
          cases hfc : List.filter (fun c => decide (c ∈ env.meta.columns))
              ["file_path", "dicom_path", "path"] with
          | nil => simp [dicomMetaBody, hdf, hfc] at hb
          | cons fc rest =>
            cases hqf : env.meta.queryFails with
            | true => simp [dicomMetaBody, hdf, hfc, hqf] at hb
            | false =>
              cases hfind : env.meta.rows.find?
                  (fun r => r "SOPInstanceUID" == some sop) with
              | none => simp [dicomMetaBody, hdf, hfc, hqf, hfind] at hb
              | some r =>
                cases hrp : r fc with
                | none =>
                  simp [dicomMetaBody, hdf, hfc, hqf, hfind, hrp] at hb
                | some q =>
                  cases hfsq : env.fs q with
                  | false =>
                    simp [dicomMetaBody, hdf, hfc, hqf, hfind, hrp, hfsq] at hb
                  | true =>
                    have hqp : q = p := by
                      simpa [dicomMetaBody, hdf, hfc, hqf, hfind, hrp, hfsq]
                        using hb
                    exact hqp ▸ hfsq

/-- Witness for C8: with `X.dcm` present under the second configured root
(and absent under the first) and no metadata parquet, resolution serves
`/data_in/X.dcm` via the convention probe. -/
theorem dicom_resolution_chain_witness :
    get_dicom_by_sop dicomEnvSample "X" = .file "/data_in/X.dcm" :=
  (dicom_resolution_chain dicomEnvSample "X").2.2.1 "/data_in/X.dcm" (by decide)

/-- C10: every successful `get_study_dicoms` response returns at most 2000
rows — the lookup carries `LIMIT 2000`, so the returned items are the
first 2000 matching rows (projected), a silent truncation when more rows
match — and the response's `count` field is the length of the returned row
list; in particular, when more than 2000 rows match, `count` is 2000 and
is strictly smaller than the total number of matching rows. -/
theorem study_dicoms_limit_2000 (env : StudyDicomsEnv) (study_id : String)
    (uid_col : String) (res : StudyDicomsOut)
    (hdet : detect_study_uid_column env.meta.columns = some uid_col)
    (hok : get_study_dicoms env study_id = .ok res) :
    res.count = res.items.length ∧
    res.items.length ≤ 2000 ∧
    res.items = ((studyDicomRowsMatching env study_id uid_col).take 2000).map
      (dicomProjection env) ∧
    (2000 < (studyDicomRowsMatching env study_id uid_col).length →
      res.count = 2000 ∧
      res.count < (studyDicomRowsMatching env study_id uid_col).length) := by
  cases hfe : env.meta.fileExists with
  | false => simp [get_study_dicoms, hfe] at hok
  | true =>
    cases hdf : env.meta.describeFails with
    | true => simp [get_study_dicoms, hfe, hdf] at hok
    | false =>
      cases hqf : env.meta.queryFails with
      | true => simp [get_study_dicoms, hfe, hdf, hdet, hqf] at hok
      | false =>
        have hres : res =
            { studyId := study_id,
              mappedStudyId :=
                if targetUidOf env study_id ≠ study_id then
                  some (targetUidOf env study_id)
                else none,
              count := (((studyDicomRowsMatching env study_id uid_col).take
                2000).map (dicomProjection env)).length,
              items := ((studyDicomRowsMatching env study_id uid_col).take
                2000).map (dicomProjection env) } := by
          have := hok.symm
          simpa [get_study_dicoms, hfe, hdf, hdet, hqf] using this
        subst hres
        refine ⟨rfl, ?_, rfl, ?_⟩
        · simp [List.length_map, List.length_take]
        · intro hgt
          constructor
          · simp [List.length_map, List.length_take, Nat.min_eq_left
              (Nat.le_of_lt hgt)]
          · simpa [List.length_map, List.length_take, Nat.min_eq_left
              (Nat.le_of_lt hgt)] using hgt

/-- Witness for C10: on a one-row metadata parquet for study `S` (whose
only column `anon_study_uid` is both the detected Study-UID column and
outside the preferred projection, so the row is returned unprojected), the
response's `count` equals the number of returned items and is within the
2000 cap. -/
theorem study_dicoms_limit_2000_witness :
    sdResSample.count = sdResSample.items.length ∧
    sdResSample.items.length ≤ 2000 :=
  ⟨(study_dicoms_limit_2000 sdEnvSample "S" "anon_study_uid" sdResSample
      rfl rfl).1,
   (study_dicoms_limit_2000 sdEnvSample "S" "anon_study_uid" sdResSample
      rfl rfl).2.1⟩
